import Mathlib

/-!
Verification of the Claw-Log OAuth core (`src/oauth.py`) via a shallow
embedding.  Python dicts holding JSON data are modelled as association
lists of `String × JVal`; Python exceptions as an `Except PyExc` result;
the network, the clock and the filesystem as explicit parameters.
JSON numbers are modelled as integers (the token endpoint's fields
`expires_in`, `expires_at`, `saved_at` are integral).
-/

/-- A JSON scalar value as produced by Python's `json` module for the
token-record fields involved here. -/
inductive JVal where
  | s (v : String)
  | i (v : Int)
  | b (v : Bool)
  | null
deriving DecidableEq, Repr

/-- A JSON object / Python dict: association list, first match wins,
keys assumed unique (as in any dict produced by `json.loads`). -/
abbrev JObj := List (String × JVal)

/-- Python `d.get(k)` / `d[k]`. -/
def JObj.get? (o : JObj) (k : String) : Option JVal :=
  match o with
  | [] => none
  | (k', v) :: rest => if k' = k then some v else JObj.get? rest k

/-- Python `k in d`. -/
def JObj.hasKey (o : JObj) (k : String) : Bool :=
  (JObj.get? o k).isSome

/-- Python `d[k] = v`: replace in place if the key exists, else append. -/
def JObj.set (o : JObj) (k : String) (v : JVal) : JObj :=
  match o with
  | [] => [(k, v)]
  | (k', v') :: rest =>
      if k' = k then (k', v) :: rest else (k', v') :: JObj.set rest k v

/-- Python truthiness of a JSON scalar. -/
def JVal.truthy : JVal → Bool
  | .s v => v ≠ ""
  | .i n => n ≠ 0
  | .b x => x
  | .null => false

/-- The Python exception classes that can cross the boundaries modelled
here.  `IOError` is an alias of `OSError` in Python 3, so both are
`osError`.  `urlError` stands for a `urllib.error.URLError` that is NOT
an `HTTPError` (a transport-level failure with no HTTP response). -/
inductive PyExc where
  | osError
  | jsonDecodeError
  | unicodeDecodeError
  | urlError
  | typeError
deriving DecidableEq, Repr

/-- Body of a 2xx token-endpoint response: a valid JSON object, or raw
text on which `json.loads` fails. -/
inductive ExBody where
  | json (o : JObj)
  | notJson (raw : String)
deriving DecidableEq, Repr

/-- Outcome of the one outbound POST to the token endpoint, as seen by
`urllib.request.urlopen`. -/
inductive HttpOutcome where
  | success (body : ExBody)                 -- 2xx response
  | httpError (code : Nat) (body : String)  -- non-2xx: raises HTTPError
  | transportError                          -- URLError, not an HTTPError
deriving DecidableEq, Repr

/-- `_exchange_token(params)` (src/oauth.py:154-173), with the network
outcome and the clock made explicit.  `now` is `int(time.time())` at the
moment the 2xx response is parsed.  The body:
  try: result = json.loads(resp.read()); if expires_in present then
    result[expires_at] = int(time.time()) + result[expires_in]; return result
  except HTTPError: print(...); return None
A `URLError` that is not an `HTTPError` (transport failure) and a
`JSONDecodeError` from a 2xx non-JSON body match no except clause and
propagate; adding an `int` to a non-numeric `expires_in` raises
`TypeError`, which also propagates. -/
def exchange_token (now : Int) (resp : HttpOutcome) : Except PyExc (Option JObj) :=
  match resp with
  | .success (.json o) =>
      match JObj.get? o "expires_in" with
      | some (.i n) => .ok (some (JObj.set o "expires_at" (.i (now + n))))
      | some _ => .error .typeError
      | none => .ok (some o)
  | .success (.notJson _) => .error .jsonDecodeError
  | .httpError _ _ => .ok none
  | .transportError => .error .urlError

/-- The token file as the Token Store can find it on disk.  `notUtf8`
stands for a present file whose bytes do not decode as UTF-8;
`unparsable` for one that decodes but is not valid JSON; `parsed r` for
a valid JSON object file. -/
inductive RawFile where
  | absent
  | notUtf8
  | unparsable
  | parsed (r : JObj)
deriving DecidableEq, Repr

/-- `open(TOKEN_FILE, encoding="utf-8")` followed by `json.load(f)`:
a missing file raises `FileNotFoundError ⊆ OSError`; invalid UTF-8
raises `UnicodeDecodeError` (a `ValueError`, not an `OSError` and not a
`json.JSONDecodeError`); undecodable JSON raises `JSONDecodeError`. -/
def readAndParse : RawFile → Except PyExc JObj
  | .absent => .error .osError
  | .notUtf8 => .error .unicodeDecodeError
  | .unparsable => .error .jsonDecodeError
  | .parsed r => .ok r

/-- `load_tokens()` (src/oauth.py:112-120): return None when the file
does not exist; otherwise parse inside
`try ... except (json.JSONDecodeError, IOError): return None`.
`IOError` is `OSError`, so only those two classes are caught. -/
def load_tokens (f : RawFile) : Except PyExc (Option JObj) :=
  if f = .absent then .ok none
  else
    match readAndParse f with
    | .ok r => .ok (some r)
    | .error e =>
        if e = .jsonDecodeError ∨ e = .osError then .ok none else .error e

/-- `save_tokens(tokens)` (src/oauth.py:99-109): stamp
`tokens["saved_at"] = int(time.time())` (mutating the caller's dict),
write the dict as JSON to TOKEN_FILE, best-effort chmod.  Returns the
mutated dict and the resulting file state. -/
def save_tokens (now : Int) (tokens : JObj) : JObj × RawFile :=
  let u := JObj.set tokens "saved_at" (.i now)
  (u, .parsed u)

/-- Result of one `refresh_if_needed` call: the dict returned to the
caller and what, if anything, was written to the token file. -/
structure RefreshOut where
  result : JObj
  saved : Option JObj
deriving DecidableEq, Repr

/-- `tokens.get("expires_at", 0)` followed by its use in
`time.time() + 300 < expires_at`: comparing a number with a non-number
value raises `TypeError` (outside any try block). -/
def getExpiresAt (tokens : JObj) : Except PyExc Int :=
  match JObj.get? tokens "expires_at" with
  | none => .ok 0
  | some (.i n) => .ok n
  | some _ => .error .typeError

/-- `refresh_if_needed(tokens)` (src/oauth.py:123-151).  `tNow` is the
due-check clock reading, `tEx` the clock at the refresh exchange, `tSave`
the clock at the save.  `saveRaises` models an `OSError` from the file
write inside `save_tokens` (mkdir/open); it happens inside the broad
`except Exception` of the refresh path, so it is swallowed there. -/
def refresh_if_needed (tNow tEx tSave : Int) (resp : HttpOutcome)
    (saveRaises : Bool) (tokens : JObj) : Except PyExc RefreshOut :=
  match getExpiresAt tokens with
  | .error e => .error e
  | .ok expires_at =>
    if tNow + 300 < expires_at then .ok ⟨tokens, none⟩
    else
      match JObj.get? tokens "refresh_token" with
      | none => .ok ⟨tokens, none⟩
      | some rt =>
        if !rt.truthy then .ok ⟨tokens, none⟩
        else
          -- try: new_tokens = _exchange_token({... refresh_token ...})
          match exchange_token tEx resp with
          | .error _ => .ok ⟨tokens, none⟩   -- except Exception: print; fall through
          | .ok none => .ok ⟨tokens, none⟩   -- `if new_tokens:` false for None
          | .ok (some newT) =>
            if newT.isEmpty then .ok ⟨tokens, none⟩  -- empty dict is falsy
            else
              let newT' := if JObj.hasKey newT "refresh_token" then newT
                           else JObj.set newT "refresh_token" rt
              if saveRaises then .ok ⟨tokens, none⟩  -- OSError caught by except Exception
              else
                let u := (save_tokens tSave newT').1
                .ok ⟨u, some u⟩

/-!  SHA-256 (FIPS 180-4), executable over byte lists, words as `Nat`
reduced mod 2^32.  The round constants and initial hash are computed
from the fractional parts of the cube / square roots of the first
primes, exactly as the standard defines them.  -/

/-- Reduce to a 32-bit word. -/
def w32 (x : Nat) : Nat := x % 4294967296

/-- Right-rotate of a 32-bit word. -/
def rotr32 (n x : Nat) : Nat := w32 ((x >>> n) ||| (x <<< (32 - n)))

def bsig0 (x : Nat) : Nat := rotr32 2 x ^^^ rotr32 13 x ^^^ rotr32 22 x

def bsig1 (x : Nat) : Nat := rotr32 6 x ^^^ rotr32 11 x ^^^ rotr32 25 x

def ssig0 (x : Nat) : Nat := rotr32 7 x ^^^ rotr32 18 x ^^^ (x >>> 3)

def ssig1 (x : Nat) : Nat := rotr32 17 x ^^^ rotr32 19 x ^^^ (x >>> 10)

def chf (x y z : Nat) : Nat := (x &&& y) ^^^ ((x ^^^ 4294967295) &&& z)

def majf (x y z : Nat) : Nat := (x &&& y) ^^^ (x &&& z) ^^^ (y &&& z)

/-- Trial-division primality, executable. -/
def isPrimeB (n : Nat) : Bool :=
  decide (2 ≤ n) && (List.range n).all (fun d => decide (d < 2) || decide (n % d ≠ 0))

/-- The first 64 primes (2 … 311). -/
def primes64 : List Nat := ((List.range 320).filter isPrimeB).take 64

/-- Integer cube root by bisection (fuel-bounded; `lo³ ≤ n < hi³`). -/
def icbrtAux : Nat → Nat → Nat → Nat → Nat
  | 0, lo, _, _ => lo
  | fuel + 1, lo, hi, n =>
      if hi ≤ lo + 1 then lo
      else
        let m := (lo + hi) / 2
        if m * m * m ≤ n then icbrtAux fuel m hi n else icbrtAux fuel lo m n

def icbrt (n : Nat) : Nat := icbrtAux 200 0 (n + 1) n

/-- Integer square root by bisection (fuel-bounded; `lo² ≤ n < hi²`). -/
def isqrtAux : Nat → Nat → Nat → Nat → Nat
  | 0, lo, _, _ => lo
  | fuel + 1, lo, hi, n =>
      if hi ≤ lo + 1 then lo
      else
        let m := (lo + hi) / 2
        if m * m ≤ n then isqrtAux fuel m hi n else isqrtAux fuel lo m n

def isqrt (n : Nat) : Nat := isqrtAux 200 0 (n + 1) n

/-- SHA-256 round constants (FIPS 180-4 §4.2.2): first 32 bits of the
fractional parts of the cube roots of the first 64 primes.  Listed as
literals for cheap kernel evaluation; `Kconst_derivation` below proves
they equal the prime-cube-root derivation. -/
def Kconst : List Nat :=
  [1116352408, 1899447441, 3049323471, 3921009573, 961987163, 1508970993,
   2453635748, 2870763221, 3624381080, 310598401, 607225278, 1426881987,
   1925078388, 2162078206, 2614888103, 3248222580, 3835390401, 4022224774,
   264347078, 604807628, 770255983, 1249150122, 1555081692, 1996064986,
   2554220882, 2821834349, 2952996808, 3210313671, 3336571891, 3584528711,
   113926993, 338241895, 666307205, 773529912, 1294757372, 1396182291,
   1695183700, 1986661051, 2177026350, 2456956037, 2730485921, 2820302411,
   3259730800, 3345764771, 3516065817, 3600352804, 4094571909, 275423344,
   430227734, 506948616, 659060556, 883997877, 958139571, 1322822218,
   1537002063, 1747873779, 1955562222, 2024104815, 2227730452, 2361852424,
   2428436474, 2756734187, 3204031479, 3329325298]

/-- The eight working variables of the compression function. -/
structure Hash8 where
  a : Nat
  b : Nat
  c : Nat
  d : Nat
  e : Nat
  f : Nat
  g : Nat
  h : Nat
deriving DecidableEq, Repr

/-- SHA-256 initial hash (FIPS 180-4 §5.3.3): first 32 bits of the
fractional parts of the square roots of the first 8 primes; see
`initH_derivation`. -/
def initH : Hash8 :=
  ⟨1779033703, 3144134277, 1013904242, 2773480762,
   1359893119, 2600822924, 528734635, 1541459225⟩

/-- Pad a byte message: append 0x80, zeros to 56 mod 64, then the bit
length as 8 big-endian bytes.  The zero count `k` is the unique value
in 0..63 with `L + 1 + k ≡ 56 (mod 64)`; it is written `(119 - L % 64)
% 64` so that the subtraction never truncates (119 = 55 + 64 and
`L % 64 ≤ 63`). -/
def padMsg (msg : List Nat) : List Nat :=
  let L := msg.length
  let k := (119 - L % 64) % 64
  msg ++ [128] ++ List.replicate k 0 ++
    (List.range 8).map (fun i => (8 * L) >>> (8 * (7 - i)) % 256)

/-- Big-endian 4-byte groups to 32-bit words. -/
def toWords : List Nat → List Nat
  | a :: b :: c :: d :: rest =>
      (a * 16777216 + b * 65536 + c * 256 + d) :: toWords rest
  | _ => []

/-- Extend a 16-word block to the 64-word message schedule. -/
def extendW (blk : List Nat) : Array Nat :=
  (List.range 48).foldl
    (fun w i =>
      w.push (w32 (ssig1 (w.getD (i + 14) 0) + w.getD (i + 9) 0 +
                   ssig0 (w.getD (i + 1) 0) + w.getD i 0)))
    blk.toArray

/-- One SHA-256 compression step over a 64-word schedule. -/
def sha256compress (hs : Hash8) (w : Array Nat) : Hash8 :=
  let fin := (List.range 64).foldl
    (fun s t =>
      let T1 := w32 (s.h + bsig1 s.e + chf s.e s.f s.g +
                     Kconst.getD t 0 + w.getD t 0)
      let T2 := w32 (bsig0 s.a + majf s.a s.b s.c)
      ⟨w32 (T1 + T2), s.a, s.b, s.c, w32 (s.d + T1), s.e, s.f, s.g⟩)
    hs
  ⟨w32 (hs.a + fin.a), w32 (hs.b + fin.b), w32 (hs.c + fin.c),
   w32 (hs.d + fin.d), w32 (hs.e + fin.e), w32 (hs.f + fin.f),
   w32 (hs.g + fin.g), w32 (hs.h + fin.h)⟩

/-- Split a word list into 16-word blocks (fuel-bounded so that the
recursion is structural and kernel-reducible). -/
def chunks16Aux : Nat → List Nat → List (List Nat)
  | 0, _ => []
  | _, [] => []
  | fuel + 1, w :: rest =>
      ((w :: rest).take 16) :: chunks16Aux fuel ((w :: rest).drop 16)

/-- Split a word list into 16-word blocks. -/
def chunks16 (ws : List Nat) : List (List Nat) := chunks16Aux ws.length ws

/-- A 32-bit word as 4 big-endian bytes. -/
def wordBytes (w : Nat) : List Nat :=
  [w >>> 24 % 256, w >>> 16 % 256, w >>> 8 % 256, w % 256]

/-- SHA-256 digest (32 bytes) of a byte message. -/
def sha256 (msg : List Nat) : List Nat :=
  let fin := (chunks16 (toWords (padMsg msg))).foldl
    (fun hs blk => sha256compress hs (extendW blk)) initH
  wordBytes fin.a ++ wordBytes fin.b ++ wordBytes fin.c ++ wordBytes fin.d ++
  wordBytes fin.e ++ wordBytes fin.f ++ wordBytes fin.g ++ wordBytes fin.h

/-- The URL-safe base64 alphabet (RFC 4648 §5), as used by Python's
`base64.urlsafe_b64encode`. -/
def b64c (n : Nat) : Char :=
  "ABCDEFGHIJKLMNOPQRSTUVWXYZabcdefghijklmnopqrstuvwxyz0123456789-_".data.getD n 'A'

/-- Base64 of a byte list with no padding emitted, matching
`base64.urlsafe_b64encode(bs).rstrip(b"=")`. -/
def b64groups : List Nat → List Char
  | [] => []
  | [a] => [b64c (a >>> 2), b64c ((a % 4) <<< 4)]
  | [a, b] => [b64c (a >>> 2), b64c (((a % 4) <<< 4) ||| (b >>> 4)),
               b64c ((b % 16) <<< 2)]
  | a :: b :: c :: rest =>
      b64c (a >>> 2) :: b64c (((a % 4) <<< 4) ||| (b >>> 4)) ::
      b64c (((b % 16) <<< 2) ||| (c >>> 6)) :: b64c (c % 64) :: b64groups rest

def b64urlNopad (bs : List Nat) : String := String.mk (b64groups bs)

/-- `s.encode("ascii")` for an ASCII string (the verifier produced by
`secrets.token_urlsafe` is always ASCII). -/
def asciiEncode (s : String) : List Nat := s.data.map Char.toNat

/-- `_generate_pkce()` (src/oauth.py:38-48) with the random draw made a
parameter: `verifier = secrets.token_urlsafe(32)`; `challenge =
base64.urlsafe_b64encode(sha256(verifier.encode("ascii")).digest())
.rstrip(b"=").decode("ascii")`.  (The interim `digest.hex()` assignment
on line 43 is dead: line 47 overwrites it.) -/
def generate_pkce (verifier : String) : String × String :=
  (verifier, b64urlNopad (sha256 (asciiEncode verifier)))

/-!  The callback listener and the login orchestrator.  -/

/-- One inbound GET as the handler sees it after `urlparse`/`parse_qs`:
`qcode`/`qstate` are `params.get("code", [None])[0]` and
`params.get("state", [None])[0]` (with `parse_qs` dropping blank
values, an absent or empty parameter is `none`). -/
structure Request where
  path : String
  qcode : Option String
  qstate : Option String
deriving DecidableEq, Repr

/-- The class-level capture fields of `_OAuthCallbackHandler`
(src/oauth.py:63-64). -/
structure CBState where
  authorization_code : Option String
  received_state : Option String
deriving DecidableEq, Repr

/-- The two responses `do_GET` can send. -/
inductive HttpResp where
  | ok200
  | notFound404
deriving DecidableEq, Repr

/-- `_OAuthCallbackHandler.do_GET` (src/oauth.py:66-88): on path
`/auth/callback` overwrite both class fields from the query and answer
200 with the success page; on any other path answer 404 and leave the
fields alone. -/
def do_GET (req : Request) (st : CBState) : CBState × HttpResp :=
  if req.path = "/auth/callback" then (⟨req.qcode, req.qstate⟩, .ok200)
  else (st, .notFound404)

/-- The listener thread runs `server.handle_request()` exactly once
(src/oauth.py:218), so only the first inbound request of an attempt is
served; every later request gets no response from this server (`none`
in the response list). -/
def serveRequests (reqs : List Request) (st : CBState) :
    CBState × List (Option HttpResp) :=
  match reqs with
  | [] => (st, [])
  | r :: rest =>
      let (st', resp) := do_GET r st
      (st', some resp :: rest.map (fun _ => none))

/-- Externally visible steps of one `run_oauth_login` attempt, in
program order. -/
inductive Event where
  | serverBound
  | browserOpened
  | exchangeCalled (grant : String)
  | savedTokens (o : JObj)
deriving DecidableEq, Repr

/-- The environment of one login attempt: the random `state` draw, the
bind outcome of `HTTPServer(("localhost", 1455), ...)`, the inbound
requests that arrive during the 120-second wait (possibly none), the
token endpoint's behaviour, the clock readings, and whether the
token-file write raises `OSError`. -/
structure LoginEnv where
  state : String
  bindOk : Bool
  requests : List Request
  tokenResp : HttpOutcome
  tEx : Int
  tSave : Int
  saveRaises : Bool
deriving Repr

/-- `run_oauth_login()` (src/oauth.py:180-258).  Returns the event
trace and the result.  Bind failure is caught (`except OSError`) and
returns None without opening the browser.  After the wait: `if not
code: return None`; `if received_state != state: return None` (both
before any exchange).  The `_exchange_token` call is NOT inside a try,
so an exception from it propagates; likewise `save_tokens` (the final
write) is unguarded. -/
def run_oauth_login (env : LoginEnv) : List Event × Except PyExc (Option JObj) :=
  if !env.bindOk then ([], .ok none)
  else
    let cb := (serveRequests env.requests ⟨none, none⟩).1
    let tr := [Event.serverBound, Event.browserOpened]
    let code := cb.authorization_code
    let rstate := cb.received_state
    if code = none ∨ code = some "" then (tr, .ok none)
    else if rstate ≠ some env.state then (tr, .ok none)
    else
      let tr := tr ++ [Event.exchangeCalled "authorization_code"]
      match exchange_token env.tEx env.tokenResp with
      | .error e => (tr, .error e)
      | .ok none => (tr, .ok none)
      | .ok (some tokens) =>
          if tokens.isEmpty || !(JObj.hasKey tokens "access_token") then
            (tr, .ok none)
          else if env.saveRaises then (tr, .error .osError)
          else
            let u := (save_tokens env.tSave tokens).1
            (tr ++ [Event.savedTokens u], .ok (some u))

/-!  Helper lemmas and theorems about the claims.  -/

set_option maxRecDepth 10000

/-- Setting a key makes it readable back. -/
theorem JObj.get?_set_self (o : JObj) (k : String) (v : JVal) :
    JObj.get? (JObj.set o k v) k = some v := by
  induction o with
  | nil => simp [JObj.set, JObj.get?]
  | cons p rest ih =>
    obtain ⟨k', v'⟩ := p
    by_cases h : k' = k
    · simp [JObj.set, h, JObj.get?]
    · simp [JObj.set, h, JObj.get?, ih]

/-- Setting a key leaves the other keys unchanged. -/
theorem JObj.get?_set_ne (o : JObj) (k k' : String) (v : JVal) (h : k ≠ k') :
    JObj.get? (JObj.set o k v) k' = JObj.get? o k' := by
  induction o with
  | nil => simp [JObj.set, JObj.get?, h]
  | cons p rest ih =>
    obtain ⟨k0, v0⟩ := p
    by_cases h0 : k0 = k
    · subst h0
      simp [JObj.set, JObj.get?, h]
    · simp [JObj.set, h0, JObj.get?, ih]

/-- Sanity check: the hard-coded SHA-256 round constants equal the first
32 bits of the fractional parts of the cube roots of the first 64
primes. -/
theorem Kconst_derivation :
    Kconst = primes64.map (fun p => icbrt (p * 2 ^ 96) % 4294967296) := by decide

/-- Sanity check: the hard-coded SHA-256 initial hash equals the first
32 bits of the fractional parts of the square roots of the first 8
primes. -/
theorem initH_derivation :
    [initH.a, initH.b, initH.c, initH.d, initH.e, initH.f, initH.g, initH.h] =
      (primes64.take 8).map (fun p => isqrt (p * 2 ^ 64) % 4294967296) := by decide

/-- Claim C1: in every login attempt whose callback listener captured an
authorization code while the echoed state differs from the generated
state, `run_oauth_login` returns None and the token endpoint is never
invoked with the authorization-code grant (no `exchangeCalled` event
occurs; the unexchanged code is discarded). -/
theorem C1_state_mismatch_aborts_without_exchange (env : LoginEnv) (c : String)
    (_hcode : (serveRequests env.requests ⟨none, none⟩).1.authorization_code = some c)
    (hstate : (serveRequests env.requests ⟨none, none⟩).1.received_state ≠ some env.state) :
    (run_oauth_login env).2 = .ok none ∧
    ∀ g, Event.exchangeCalled g ∉ (run_oauth_login env).1 := by
  unfold run_oauth_login
  cases hb : env.bindOk with
  | false => simp
  | true =>
    simp only [Bool.not_true, Bool.false_eq_true, if_false, ite_false]
    by_cases hc : (serveRequests env.requests ⟨none, none⟩).1.authorization_code = none ∨
        (serveRequests env.requests ⟨none, none⟩).1.authorization_code = some ""
    · simp [hc]
    · simp [hc, hstate]

/-- Witness for C1: a callback that echoes state "evil" while the
attempt generated state "good" yields a None result and no exchange. -/
theorem C1_witness :
    (run_oauth_login ⟨"good", true, [⟨"/auth/callback", some "CODE", some "evil"⟩],
        .transportError, 0, 0, false⟩).2 = .ok none ∧
    Event.exchangeCalled "authorization_code" ∉
      (run_oauth_login ⟨"good", true, [⟨"/auth/callback", some "CODE", some "evil"⟩],
        .transportError, 0, 0, false⟩).1 := by
  have h := C1_state_mismatch_aborts_without_exchange
    ⟨"good", true, [⟨"/auth/callback", some "CODE", some "evil"⟩], .transportError, 0, 0, false⟩
    "CODE" (by decide) (by decide)
  exact ⟨h.1, h.2 "authorization_code"⟩

/-- Counterexample to claim C2: a 2xx token response carrying an
absolute `expires_at` of 99 but no `expires_in` is returned unchanged by
`_exchange_token` at local time 1000 — the provider-supplied absolute
`expires_at` IS used as the record's `expires_at`, contradicting the
claim that such a value is never used. -/
theorem C2_counterexample :
    exchange_token 1000 (.success (.json
        [("access_token", JVal.s "AT"), ("expires_at", JVal.i 99)])) =
      .ok (some [("access_token", JVal.s "AT"), ("expires_at", JVal.i 99)]) ∧
    JObj.get? [("access_token", JVal.s "AT"), ("expires_at", JVal.i 99)] "expires_in" = none ∧
    JObj.get? [("access_token", JVal.s "AT"), ("expires_at", JVal.i 99)] "expires_at" =
      some (JVal.i 99) :=
  ⟨rfl, by decide, by decide⟩

/-- Claim C2 (amended): whenever a 2xx token response contains
`expires_in`, the returned record's `expires_at` equals the local time
at the exchange plus `expires_in`, overwriting any provider value; when
`expires_in` is absent the body — including any provider-supplied
absolute `expires_at` — is returned unchanged. -/
theorem C2_expires_at_amended (now : Int) (o : JObj) :
    (∀ n : Int, JObj.get? o "expires_in" = some (.i n) →
        exchange_token now (.success (.json o)) =
          .ok (some (JObj.set o "expires_at" (.i (now + n)))) ∧
        JObj.get? (JObj.set o "expires_at" (.i (now + n))) "expires_at" =
          some (.i (now + n))) ∧
    (JObj.get? o "expires_in" = none →
        exchange_token now (.success (.json o)) = .ok (some o)) := by
  constructor
  · intro n hn
    exact ⟨by simp [exchange_token, hn], JObj.get?_set_self _ _ _⟩
  · intro hn
    simp [exchange_token, hn]

/-- Witness for C2 (amended): at local time 50 a response with
`expires_in = 3600` gets `expires_at = 3650`; at local time 7 a response
with only an absolute `expires_at = 99` passes through unchanged. -/
theorem C2_witness :
    (exchange_token 50 (.success (.json [("access_token", JVal.s "A"), ("expires_in", JVal.i 3600)])) =
      .ok (some (JObj.set [("access_token", JVal.s "A"), ("expires_in", JVal.i 3600)]
        "expires_at" (JVal.i (50 + 3600)))) ∧
     JObj.get? (JObj.set [("access_token", JVal.s "A"), ("expires_in", JVal.i 3600)]
        "expires_at" (JVal.i (50 + 3600))) "expires_at" = some (JVal.i (50 + 3600))) ∧
    exchange_token 7 (.success (.json [("expires_at", JVal.i 99)])) =
      .ok (some [("expires_at", JVal.i 99)]) :=
  ⟨(C2_expires_at_amended 50 _).1 3600 (by decide), (C2_expires_at_amended 7 _).2 (by decide)⟩

/-- Counterexample to claim C3: a stored record with only a
`refresh_token` and no `access_token` is returned as-is by
`load_tokens`, not rejected and not treated as absent. -/
theorem C3_counterexample :
    load_tokens (.parsed [("refresh_token", JVal.s "RT")]) =
      .ok (some [("refresh_token", JVal.s "RT")]) ∧
    JObj.get? [("refresh_token", JVal.s "RT")] "access_token" = none :=
  ⟨by simp [load_tokens, readAndParse], by decide⟩

/-- Claim C3 (amended): `load_tokens` performs no `access_token`
validation — every successfully parsed record is returned to the caller
unchanged, whether or not it has an `access_token`; only absent or
unparsable files produce None. -/
theorem C3_load_returns_record_without_access_token (r : JObj) :
    load_tokens (.parsed r) = .ok (some r) := by
  simp [load_tokens, readAndParse]

/-- Claim C4: the round trip holds — loading right after a save returns
the saved record with `saved_at` set to the save time, and an absent or
JSON-malformed file loads as None — but a present file whose bytes are
not valid UTF-8 makes `load_tokens` raise `UnicodeDecodeError` (only
`json.JSONDecodeError` and `IOError` are caught), so corruption CAN
raise past the Token Store boundary. -/
theorem C4_roundtrip_and_unicode_bug :
    (∀ (r : JObj) (t : Int),
        load_tokens (save_tokens t r).2 = .ok (some (JObj.set r "saved_at" (.i t)))) ∧
    load_tokens .absent = .ok none ∧
    load_tokens .unparsable = .ok none ∧
    load_tokens .notUtf8 = .error .unicodeDecodeError := by
  refine ⟨fun r t => by simp [load_tokens, save_tokens, readAndParse],
    by simp [load_tokens], by simp [load_tokens, readAndParse],
    by simp [load_tokens, readAndParse]⟩

/-- Counterexample to claim C5: with a matching state and a captured
code, a transport-level failure of the token POST makes
`run_oauth_login` end in an uncaught `URLError` — an exception escapes
to the caller instead of a None return. -/
theorem C5_counterexample :
    (run_oauth_login ⟨"S", true, [⟨"/auth/callback", some "C", some "S"⟩],
        .transportError, 0, 0, false⟩).2 = .error .urlError := rfl

/-- Claim C5 (amended): every error before the token exchange is turned
into a None return, but an exception can still escape `run_oauth_login`:
whenever the attempt ends in an exception, that exception came from the
`_exchange_token` call (transport-level `URLError`, `JSONDecodeError` on
a 2xx non-JSON body, or `TypeError` on a non-numeric `expires_in`) or it
is the `OSError` of the final unguarded `save_tokens` write. -/
theorem C5_errors_escape_only_from_exchange_or_save (env : LoginEnv) (e : PyExc)
    (h : (run_oauth_login env).2 = .error e) :
    exchange_token env.tEx env.tokenResp = .error e ∨
      (e = .osError ∧ env.saveRaises = true) := by
  unfold run_oauth_login at h
  cases hb : env.bindOk with
  | false => rw [hb] at h; simp at h
  | true =>
    rw [hb] at h
    simp only [Bool.not_true, Bool.false_eq_true, if_false, ite_false] at h
    split at h
    · simp at h
    · split at h
      · simp at h
      · split at h
        next hex => simp at h; subst h; exact Or.inl hex
        next => simp at h
        next =>
          split at h
          · simp at h
          · split at h
            next hsr => simp at h; exact Or.inr ⟨h.symm, hsr⟩
            next => simp at h

/-- Witness for C5 (amended): the escaped error of the transport-failure
attempt is indeed the exchange's `URLError`. -/
theorem C5_witness :
    exchange_token 0 HttpOutcome.transportError = .error .urlError ∨
      (PyExc.urlError = .osError ∧ (false : Bool) = true) :=
  C5_errors_escape_only_from_exchange_or_save
    ⟨"S", true, [⟨"/auth/callback", some "C", some "S"⟩], .transportError, 0, 0, false⟩
    .urlError (by rfl)

/-- Claim C6: for every stored record due for refresh with a truthy
refresh token, a failed refresh exchange — non-2xx HTTP response or
transport error — makes `refresh_if_needed` return the original stale
record unchanged, with no token-file write and no exception. -/
theorem C6_refresh_failure_returns_stale_record
    (tNow tEx tSave : Int) (tokens : JObj) (resp : HttpOutcome) (sr : Bool)
    (ea : Int) (hea : getExpiresAt tokens = .ok ea) (hdue : ¬ tNow + 300 < ea)
    (rt : JVal) (hrt : JObj.get? tokens "refresh_token" = some rt) (htr : rt.truthy = true)
    (hfail : (∃ c b, resp = .httpError c b) ∨ resp = .transportError) :
    refresh_if_needed tNow tEx tSave resp sr tokens = .ok ⟨tokens, none⟩ := by
  rcases hfail with ⟨c, b, rfl⟩ | rfl <;>
    simp [refresh_if_needed, hea, hdue, hrt, htr, exchange_token]

/-- Witness for C6: a record expiring at 100, due at time 0, whose
refresh gets HTTP 400, is returned unchanged with nothing saved. -/
theorem C6_witness :
    refresh_if_needed 0 0 0 (.httpError 400 "bad") false
        [("expires_at", JVal.i 100), ("refresh_token", JVal.s "RT")] =
      .ok ⟨[("expires_at", JVal.i 100), ("refresh_token", JVal.s "RT")], none⟩ :=
  C6_refresh_failure_returns_stale_record 0 0 0 _ _ false 100 rfl (by decide)
    (JVal.s "RT") (by decide) (by decide) (Or.inl ⟨400, "bad", rfl⟩)

/-- Claim C7: for every verifier the PKCE challenge is the unpadded
URL-safe base64 of the SHA-256 digest of the verifier's ASCII bytes; on
the verifier bytes "test" the digest is
9f86d081884c7d659a2feaa0c55ad015a3bf4f1b2b0b822cd15d6c15b0f00a08 and
the challenge is n4bQgYhMfWWaL-qgxVrQFaO_TxsrC4Is0V1sFbDwCgg.  The last
two conjuncts pin the embedded hash to FIPS 180-4 on the two-block NIST
test vector (56 ASCII bytes, a length ≡ 56 mod 64, the padding regime
where the final zero-fill wraps to the next block): its digest is
248d6a61d20638b8e5c026930c3e6039a33ce45964ff2167f6ecedd419db06c1. -/
theorem C7_pkce_challenge :
    (∀ v : String, (generate_pkce v).2 = b64urlNopad (sha256 (asciiEncode v))) ∧
    sha256 (asciiEncode "test") =
      [159, 134, 208, 129, 136, 76, 125, 101, 154, 47, 234, 160, 197, 90, 208, 21,
       163, 191, 79, 27, 43, 11, 130, 44, 209, 93, 108, 21, 176, 240, 10, 8] ∧
    (generate_pkce "test").2 = "n4bQgYhMfWWaL-qgxVrQFaO_TxsrC4Is0V1sFbDwCgg" ∧
    sha256 (asciiEncode "abcdbcdecdefdefgefghfghighijhijkijkljklmklmnlmnomnopnopq") =
      [36, 141, 106, 97, 210, 6, 56, 184, 229, 192, 38, 147, 12, 62, 96, 57,
       163, 60, 228, 89, 100, 255, 33, 103, 246, 236, 237, 212, 25, 219, 6, 193] ∧
    (generate_pkce "abcdbcdecdefdefgefghfghighijhijkijkljklmklmnlmnomnopnopq").2 =
      "JI1qYdIGOLjlwCaTDD5gOaM85Flk_yFn9uzt1BnbBsE" :=
  ⟨fun _ => rfl, by decide, rfl, by decide, rfl⟩

/-- Counterexample to claim C8: when /favicon.ico arrives before the
callback, the single-shot listener answers the favicon with 404, never
serves the /auth/callback request (its response slot is `none`),
captures nothing, and the login attempt returns None — the callback's
code and state do NOT become the captured values. -/
theorem C8_counterexample :
    serveRequests [⟨"/favicon.ico", none, none⟩, ⟨"/auth/callback", some "C", some "S"⟩]
        ⟨none, none⟩ = (⟨none, none⟩, [some .notFound404, none]) ∧
    (run_oauth_login ⟨"S", true,
        [⟨"/favicon.ico", none, none⟩, ⟨"/auth/callback", some "C", some "S"⟩],
        .transportError, 0, 0, false⟩).2 = .ok none :=
  ⟨rfl, rfl⟩

/-- Claim C8 (amended): only the FIRST request of an attempt is served.
If it is to a path other than /auth/callback it gets 404 and nothing is
captured; if it is to /auth/callback it gets 200 and its code and state
are captured; every later request — including a callback following a
non-callback request — is never served. -/
theorem C8_single_request_listener (r : Request) (rest : List Request) (st : CBState) :
    (r.path ≠ "/auth/callback" →
        serveRequests (r :: rest) st =
          (st, some .notFound404 :: rest.map (fun _ => none))) ∧
    (r.path = "/auth/callback" →
        serveRequests (r :: rest) st =
          (⟨r.qcode, r.qstate⟩, some .ok200 :: rest.map (fun _ => none))) := by
  constructor <;> intro h <;> simp [serveRequests, do_GET, h]

/-- Witness for C8 (amended): a served favicon request yields 404 and no
capture; a served callback request yields 200 and captures its
parameters. -/
theorem C8_witness :
    serveRequests [⟨"/favicon.ico", none, none⟩] ⟨none, none⟩ =
      (⟨none, none⟩, [some .notFound404]) ∧
    serveRequests [⟨"/auth/callback", some "C", some "S"⟩] ⟨none, none⟩ =
      (⟨some "C", some "S"⟩, [some .ok200]) :=
  ⟨(C8_single_request_listener ⟨"/favicon.ico", none, none⟩ [] ⟨none, none⟩).1 (by decide),
   (C8_single_request_listener ⟨"/auth/callback", some "C", some "S"⟩ [] ⟨none, none⟩).2 rfl⟩

/-- Claim C9: if binding the listener port fails, `run_oauth_login`
returns None immediately with an empty event trace — in particular the
browser is never opened; and whenever the browser is opened, the trace
begins with the server bound strictly before the browser open. -/
theorem C9_bind_failure_and_browser_order (env : LoginEnv) :
    (env.bindOk = false → run_oauth_login env = ([], .ok none)) ∧
    (Event.browserOpened ∈ (run_oauth_login env).1 →
      (run_oauth_login env).1.take 2 = [.serverBound, .browserOpened]) := by
  unfold run_oauth_login
  cases hb : env.bindOk with
  | false => simp
  | true =>
    constructor
    · intro h; exact absurd h (by simp)
    · intro _
      simp only [Bool.not_true, Bool.false_eq_true, if_false, ite_false]
      split
      · rfl
      · split
        · rfl
        · split
          · simp
          · simp
          · split
            · simp
            · split <;> simp

/-- Witness for C9: with the port in use the result is immediate failure
with an empty trace; with a successful bind the trace starts with
serverBound then browserOpened. -/
theorem C9_witness :
    run_oauth_login ⟨"S", false, [], .transportError, 0, 0, false⟩ = ([], .ok none) ∧
    (run_oauth_login ⟨"S", true, [], .transportError, 0, 0, false⟩).1.take 2 =
      [Event.serverBound, Event.browserOpened] :=
  ⟨(C9_bind_failure_and_browser_order ⟨"S", false, [], .transportError, 0, 0, false⟩).1 rfl,
   (C9_bind_failure_and_browser_order ⟨"S", true, [], .transportError, 0, 0, false⟩).2 (by decide)⟩

/-- Counterexample to claim C10: a due record refreshed against a 2xx
response whose JSON body is the EMPTY object (which lacks
`access_token`) is NOT persisted — the empty dict is falsy in Python, so
`refresh_if_needed` falls through and returns the original stale record
with no file write, contrary to the claim that every 2xx body lacking an
access_token is persisted and returned. -/
theorem C10_counterexample :
    refresh_if_needed 1000 1000 1000 (.success (.json [])) false
        [("expires_at", JVal.i 10), ("refresh_token", JVal.s "RT")] =
      .ok ⟨[("expires_at", JVal.i 10), ("refresh_token", JVal.s "RT")], none⟩ := rfl

/-- Claim C10 (amended): for a due record with a truthy refresh token,
a NON-EMPTY 2xx JSON refresh body lacking `access_token` (and without
`expires_in` or a `refresh_token` of its own) is persisted via
`save_tokens` with the prior refresh token carried forward and returned
as the new record, still with no `access_token` — the access-token
presence check exists only in the login path. -/
theorem C10_refresh_persists_tokenless_nonempty_body
    (tNow tEx tSave : Int) (tokens body : JObj)
    (ea : Int) (hea : getExpiresAt tokens = .ok ea) (hdue : ¬ tNow + 300 < ea)
    (rt : JVal) (hrt : JObj.get? tokens "refresh_token" = some rt) (htr : rt.truthy = true)
    (hne : List.isEmpty body = false) (hnoexp : JObj.get? body "expires_in" = none)
    (hnort : JObj.get? body "refresh_token" = none)
    (hnoat : JObj.get? body "access_token" = none) :
    refresh_if_needed tNow tEx tSave (.success (.json body)) false tokens =
      .ok ⟨JObj.set (JObj.set body "refresh_token" rt) "saved_at" (.i tSave),
           some (JObj.set (JObj.set body "refresh_token" rt) "saved_at" (.i tSave))⟩ ∧
    JObj.get? (JObj.set (JObj.set body "refresh_token" rt) "saved_at" (.i tSave))
        "access_token" = none := by
  constructor
  · simp [refresh_if_needed, hea, hdue, hrt, htr, exchange_token, hnoexp, hne,
          save_tokens, JObj.hasKey, hnort]
  · rw [JObj.get?_set_ne _ _ _ _ (by decide), JObj.get?_set_ne _ _ _ _ (by decide)]
    exact hnoat

/-- Witness for C10 (amended): refreshing a due record against the 2xx
body merely containing a token_type persists that body with the old
refresh token carried forward and `saved_at` stamped, and the persisted
record still has no `access_token`. -/
theorem C10_witness :
    refresh_if_needed 0 0 77 (.success (.json [("token_type", JVal.s "bearer")])) false
        [("expires_at", JVal.i 10), ("refresh_token", JVal.s "RT")] =
      .ok ⟨JObj.set (JObj.set [("token_type", JVal.s "bearer")] "refresh_token" (JVal.s "RT"))
             "saved_at" (JVal.i 77),
           some (JObj.set (JObj.set [("token_type", JVal.s "bearer")] "refresh_token" (JVal.s "RT"))
             "saved_at" (JVal.i 77))⟩ ∧
    JObj.get? (JObj.set (JObj.set [("token_type", JVal.s "bearer")] "refresh_token" (JVal.s "RT"))
        "saved_at" (JVal.i 77)) "access_token" = none :=
  C10_refresh_persists_tokenless_nonempty_body 0 0 77
    [("expires_at", JVal.i 10), ("refresh_token", JVal.s "RT")]
    [("token_type", JVal.s "bearer")] 10 rfl (by decide) (JVal.s "RT") (by decide) (by decide)
    (by decide) (by decide) (by decide) (by decide)
